import Mathlib

/-!
Shallow embedding of the cookie-injector repository (pvliesdonk/cookie-injector)
and proofs about its specification claims.

Modelling conventions:
* A Python cookie dict is a `Cookie` record; `expires` is `Option ℤ` (the key
  may be absent).  `c.get("expires", -1)` is `Cookie.expiresOrDefault`.
  Timestamps (cookie expiries and the wall clock) are integer epoch seconds:
  the jar format stores integer `expires`, and no claim depends on the
  sub-second fraction of `time.time()`.  Fractional arithmetic performed by
  the code itself (the scheduler's `* 0.75`, health's hour rounding) is
  modelled exactly in `ℚ`.
* The contents of a jar file are modelled at the level of the parsed JSON value:
  `Except Unit Jar` (invalid JSON is `.error ()`), and a possibly-absent file is
  `Option (Except Unit Jar)`.
* Python wall-clock `time.time()` is an explicit `now` parameter.
* A Python dict access `c["expires"]` on a cookie whose key is absent raises
  `KeyError`; functions that contain such an access are given an `Except Unit`
  result so that the exceptional path is represented, not erased.
-/

namespace CookieInjector

/-- A cookie record as extracted from a jar JSON file.  `domain` and `expires`
model possibly-absent dict keys; further pass-through fields are not inspected
by any of the functions embedded here. -/
structure Cookie where
  name : String
  value : String
  domain : Option String
  expires : Option ℤ
deriving Repr, DecidableEq

/-- Python `c.get("expires", -1)` (src/proxy/cookie_store.py line 81,
src/refresh/cookie_store.py line 34, src/refresh/scheduler.py line 49,
src/health/server.py line 54). -/
def Cookie.expiresOrDefault (c : Cookie) : ℤ :=
  c.expires.getD (-1)

/-- The metadata object of a jar file; every field is a possibly-absent key. -/
structure Metadata where
  refreshed_at : Option String
  refresh_source : Option String
  site_config : Option String
  cookies_count : Option Nat
  session_cookie_workaround : Option Bool
  session_cookies_converted : Option Nat
  next_refresh : Option String
deriving Repr, DecidableEq

/-- The empty metadata object `{}`. -/
def Metadata.empty : Metadata :=
  ⟨none, none, none, none, none, none, none⟩

/-- A parsed jar JSON object; `cookies` and `metadata` model possibly-absent
top-level keys. -/
structure Jar where
  cookies : Option (List Cookie)
  metadata : Option Metadata
deriving Repr, DecidableEq

/-- Errors raised by `load_cookies`. -/
inductive LoadError where
  | fileNotFound
  | jsonDecodeError
  | missingCookiesKey
deriving Repr, DecidableEq

/-- `load_cookies` (src/proxy/cookie_store.py lines 35-55; the copy in
src/refresh/cookie_store.py lines 95-110 has identical logic).  The input models
the state of the file at `path`: `none` when the file is absent, `some (.error ())`
when its content is not valid JSON, `some (.ok jar)` when it parses. -/
def load_cookies (file : Option (Except Unit Jar)) :
    Except LoadError (List Cookie × Metadata) :=
  match file with
  | none => .error .fileNotFound
  | some (.error _) => .error .jsonDecodeError
  | some (.ok data) =>
    match data.cookies with
    | none => .error .missingCookiesKey
    | some cookies => .ok (cookies, data.metadata.getD Metadata.empty)

/-- `format_cookies` (src/proxy/cookie_store.py lines 58-67). -/
def format_cookies (cookies : List Cookie) : String :=
  String.intercalate "; " (cookies.map (fun c => c.name ++ "=" ++ c.value))

/-- `get_cookie_status` (src/proxy/cookie_store.py lines 70-88).  The `.error`
result models the uncaught Python exceptions of the source: `KeyError` when a
cookie in `valid` lacks the `expires` key, and `ValueError` from `min` of an
empty sequence (both can only occur for `now < -1`). -/
def get_cookie_status (cookies : List Cookie) (now : ℤ) :
    Except Unit (String × List Cookie) :=
  let valid := cookies.filter (fun c => decide (c.expiresOrDefault > now))
  if valid.isEmpty then .ok ("expired", [])
  else if valid.any (fun c => c.expires.isNone) then .error ()
  else
    match (valid.filterMap Cookie.expires).min? with
    | none => .error ()
    | some min_expiry =>
      if min_expiry - now < 24 * 3600 then .ok ("expiring", valid)
      else .ok ("ok", valid)

/-! ### Proxy addon (src/proxy/addon.py) -/

/-- The synthesised 502 JSON body of `CookieInjectorAddon._return_502`
(src/proxy/addon.py lines 86-91). -/
structure ErrorBody where
  error : String
  domain : String
  message : String
  status : String
deriving Repr, DecidableEq

/-- A synthesised HTTP response (src/proxy/addon.py lines 92-99). -/
structure Response502 where
  statusCode : Nat
  body : ErrorBody
  headers : List (String × String)
deriving Repr, DecidableEq

/-- `CookieInjectorAddon._return_502` (src/proxy/addon.py lines 79-100). -/
def return_502 (reason domain : String) : Response502 :=
  { statusCode := 502
    body :=
      { error := "cookie_injector_no_valid_cookies"
        domain := domain
        message := "No valid authentication cookies available. Reason: " ++ reason
        status := reason }
    headers :=
      [("Content-Type", "application/json"),
       ("X-Cookie-Injector-Status", reason)] }

/-- Assignment `headers[k] = v` on a header collection: replace the value of an
existing key, otherwise append the pair. -/
def setHeader (hs : List (String × String)) (k v : String) :
    List (String × String) :=
  if hs.any (fun p => p.1 = k) then
    hs.map (fun p => if p.1 = k then (k, v) else p)
  else hs ++ [(k, v)]

/-- The outcome of `CookieInjectorAddon.request` on one flow: return without a
synthesised response and without touching headers (unparseable host), a
short-circuit 502, a forwarded request with rewritten headers, or an uncaught
exception. -/
inductive AddonOutcome where
  | passThrough
  | shortCircuit (resp : Response502)
  | forwarded (reqHeaders : List (String × String))
  | raised
deriving Repr, DecidableEq

/-- `CookieInjectorAddon.request` (src/proxy/addon.py lines 42-77).
`canonicalDomain` is the result of `get_canonical_domain(host)` (`none` models
the `ValueError` branch: tldextract is an external collaborator), `file` the
state of `{cookie_dir}/{domain}.json`, `now` the wall clock read inside
`get_cookie_status`, and `reqHeaders` the incoming request's headers. -/
def addonRequest (canonicalDomain : Option String)
    (file : Option (Except Unit Jar)) (now : ℤ)
    (reqHeaders : List (String × String)) : AddonOutcome :=
  match canonicalDomain with
  | none => .passThrough
  | some domain =>
    if file.isNone then .shortCircuit (return_502 "missing" domain)
    else
      match load_cookies file with
      | .error _ => .shortCircuit (return_502 "error" domain)
      | .ok (cookies, _) =>
        match get_cookie_status cookies now with
        | .error _ => .raised
        | .ok (status, valid) =>
          if status = "expired" then .shortCircuit (return_502 "expired" domain)
          else
            .forwarded
              (setHeader
                (setHeader reqHeaders "Cookie" (format_cookies valid))
                "X-Cookie-Injector-Status" status)

/-! ### Refresh cookie store (src/refresh/cookie_store.py) -/

/-- `SESSION_COOKIE_TTL_SECONDS = 30 * 24 * 3600` (src/refresh/cookie_store.py
line 14). -/
def SESSION_COOKIE_TTL_SECONDS : ℤ := 30 * 24 * 3600

/-- `apply_session_cookie_workaround` (src/refresh/cookie_store.py lines 17-44).
`now` is `int(time.time())`.  Each cookie is shallow-copied; a copy whose
`c.get("expires", -1) == -1` gets `expires = now + SESSION_COOKIE_TTL_SECONDS`. -/
def apply_session_cookie_workaround (now : ℤ) (cookies : List Cookie) :
    List Cookie :=
  cookies.map (fun cookie =>
    if cookie.expiresOrDefault = -1 then
      { cookie with expires := some (now + SESSION_COOKIE_TTL_SECONDS) }
    else cookie)

/-- The jar JSON value assembled and written by `save_cookies_with_metadata`
(src/refresh/cookie_store.py lines 47-92).  `now` is the `int(time.time())`
sampled by the session workaround and `refreshedAt` the externally produced
`datetime.now(tz=UTC)` ISO string. -/
def save_cookies_with_metadata (domain : String) (cookies : List Cookie)
    (now : ℤ) (refreshedAt : String) (refresh_source : String)
    (next_refresh_at : Option String) : Jar :=
  let processed_cookies := apply_session_cookie_workaround now cookies
  let session_cookie_count :=
    cookies.countP (fun c => decide (c.expiresOrDefault = -1))
  { cookies := some processed_cookies
    metadata := some
      { refreshed_at := some refreshedAt
        refresh_source := some refresh_source
        site_config := some domain
        cookies_count := some processed_cookies.length
        session_cookie_workaround := some (decide (0 < session_cookie_count))
        session_cookies_converted := some session_cookie_count
        next_refresh := next_refresh_at } }

/-- The write steps `save_cookies_with_metadata` performs on the filesystem, in
source order (src/refresh/cookie_store.py lines 86-91): `tmp_file.open("w")`,
`json.dump(data, f, indent=2)`, `f.flush()`, `os.fsync(f.fileno())`, then
`tmp_file.rename(cookie_file)`. -/
inductive SaveStep where
  | openTmp
  | writeTmp
  | flushTmp
  | syncTmp
  | renameStep
deriving Repr, DecidableEq

/-- The two files `save_cookies_with_metadata` can touch, with abstract byte
contents: `{domain}.json` (`target`) and `{domain}.json.tmp` (`tmp`); `none`
means the file does not exist. -/
structure FS where
  target : Option String
  tmp : Option String
deriving Repr, DecidableEq

/-- The filesystem protocol of `save_cookies_with_metadata`
(src/refresh/cookie_store.py lines 86-91): open-truncate the tmp file, write the
serialized jar into it, flush, fsync, then rename the tmp file over the target.
`failAt` names the first step at which the OS raises (or `none` for a successful
run); `.error` returns the filesystem as the raised exception leaves it.  Only
the final rename touches `target`. -/
def save_write_protocol (content : String) (fs : FS) (failAt : Option SaveStep) :
    Except FS FS :=
  if failAt = some SaveStep.openTmp then .error fs
  else
    let fs1 : FS := { fs with tmp := some "" }
    if failAt = some SaveStep.writeTmp then .error fs1
    else
      let fs2 : FS := { fs1 with tmp := some content }
      if failAt = some SaveStep.flushTmp then .error fs2
      else if failAt = some SaveStep.syncTmp then .error fs2
      else if failAt = some SaveStep.renameStep then .error fs2
      else .ok { target := fs2.tmp, tmp := none }

/-! ### Adaptive scheduler (src/refresh/scheduler.py) -/

/-- `MIN_INTERVAL = 6 * 3600` (src/refresh/scheduler.py line 18). -/
def MIN_INTERVAL : ℚ := 6 * 3600

/-- `MAX_INTERVAL = 24 * 3600` (src/refresh/scheduler.py line 19). -/
def MAX_INTERVAL : ℚ := 24 * 3600

/-- `calculate_next_refresh` (src/refresh/scheduler.py lines 23-66).
`fileExists` models `cookie_file.exists()`, `loadResult` the outcome of the
`load_cookies` call inside the `try` (any exception is caught and yields `0.0`),
`now` is `time.time()`.  The `.error` result models the uncaught `KeyError` /
`ValueError` from `min(c["expires"] for c in valid)` (possible only for
`now < -1`). -/
def calculate_next_refresh (fileExists : Bool)
    (loadResult : Except Unit (List Cookie)) (now : ℤ) : Except Unit ℚ :=
  if fileExists = false then .ok 0
  else
    match loadResult with
    | .error _ => .ok 0
    | .ok cookies =>
      let valid := cookies.filter (fun c => decide (c.expiresOrDefault > now))
      if valid.isEmpty then .ok 0
      else if valid.any (fun c => c.expires.isNone) then .error ()
      else
        match (valid.filterMap Cookie.expires).min? with
        | none => .error ()
        | some min_expiry =>
          let cookie_lifetime := min_expiry - now
          let raw_interval : ℚ := (cookie_lifetime : ℚ) * (3 / 4)
          .ok (max MIN_INTERVAL (min MAX_INTERVAL raw_interval))

/-! ### Health aggregator (src/health/server.py) -/

/-- `EXPIRING_THRESHOLD_SECONDS = 24 * 3600` (src/health/server.py line 33). -/
def EXPIRING_THRESHOLD_SECONDS : ℤ := 24 * 3600

/-- Python 3 `round(x)` at integer precision: round half to even. -/
def round_half_even (x : ℚ) : ℤ :=
  let f := Int.floor x
  let frac := x - (f : ℚ)
  if frac < 1 / 2 then f
  else if 1 / 2 < frac then f + 1
  else if f % 2 = 0 then f else f + 1

/-- Python `round(x, 1)`: round to one decimal place, half to even. -/
def round1 (x : ℚ) : ℚ :=
  (round_half_even (x * 10) : ℚ) / 10

/-- The per-site dict built by `get_site_status` (src/health/server.py lines
38-91).  Outer `Option` on each field models key presence in the returned dict;
the `error` branch returns a dict with only `status` and `error` keys.
`cookies_valid_until` carries the epoch timestamp whose ISO-8601 rendering the
code emits (the rendering itself is an external `datetime` call). -/
structure SiteRecord where
  status : String
  cookies_count : Option Nat
  cookies_valid_until : Option (Option ℤ)
  time_remaining_hours : Option ℚ
  last_refresh : Option (Option String)
  next_refresh : Option (Option String)
  session_cookie_workaround : Option Bool
  error : Option String
deriving Repr, DecidableEq

/-- `get_site_status` (src/health/server.py lines 38-91).  `parsed` models the
result of `json.load` on the file (`.error ()` for a `json.JSONDecodeError`);
`now` is `time.time()`.  Note `data.get("cookies", [])`: a parsed object without
a `cookies` key is treated as an empty cookie list, not as an error.  The
`KeyError` from `min(c["expires"] for c in valid)` when a member of `valid`
lacks the key (possible only for `now < -1`) is caught by the same handler as
the decode error and also yields the error record. -/
def get_site_status (parsed : Except Unit Jar) (now : ℤ) : SiteRecord :=
  match parsed with
  | .error _ =>
    { status := "error"
      cookies_count := none
      cookies_valid_until := none
      time_remaining_hours := none
      last_refresh := none
      next_refresh := none
      session_cookie_workaround := none
      error := some "JSONDecodeError" }
  | .ok data =>
    let cookies := data.cookies.getD []
    let metadata := data.metadata.getD Metadata.empty
    let valid := cookies.filter (fun c => decide (c.expiresOrDefault > now))
    if valid.isEmpty then
      { status := "expired"
        cookies_count := some 0
        cookies_valid_until := some none
        time_remaining_hours := some 0
        last_refresh := some metadata.refreshed_at
        next_refresh := some metadata.next_refresh
        session_cookie_workaround := some (metadata.session_cookie_workaround.getD false)
        error := none }
    else if valid.any (fun c => c.expires.isNone) then
      { status := "error"
        cookies_count := none
        cookies_valid_until := none
        time_remaining_hours := none
        last_refresh := none
        next_refresh := none
        session_cookie_workaround := none
        error := some "KeyError" }
    else
      match (valid.filterMap Cookie.expires).min? with
      | none =>
        { status := "error"
          cookies_count := none
          cookies_valid_until := none
          time_remaining_hours := none
          last_refresh := none
          next_refresh := none
          session_cookie_workaround := none
          error := some "ValueError" }
      | some min_expiry =>
        let time_remaining := min_expiry - now
        { status := if time_remaining < EXPIRING_THRESHOLD_SECONDS then "expiring" else "ok"
          cookies_count := some valid.length
          cookies_valid_until := some (some min_expiry)
          time_remaining_hours := some (round1 ((time_remaining : ℚ) / 3600))
          last_refresh := some metadata.refreshed_at
          next_refresh := some metadata.next_refresh
          session_cookie_workaround := some (metadata.session_cookie_workaround.getD false)
          error := none }

/-! ### Refresh executor (src/refresh/refresh.py) -/

/-- `MAX_RETRIES = 3` (src/refresh/refresh.py line 16). -/
def MAX_RETRIES : Nat := 3

/-- `BASE_BACKOFF_SECONDS = 5` (src/refresh/refresh.py line 17). -/
def BASE_BACKOFF_SECONDS : Nat := 5

/-- `_script_module_name` (src/refresh/refresh.py lines 20-22):
`"refresh.scripts." + domain.replace(".", "_")`; for the single-character
pattern `"."` Python's `str.replace` is exactly a character-wise map. -/
def _script_module_name (domain : String) : String :=
  "refresh.scripts." ++
    String.mk (domain.data.map (fun ch => if ch = '.' then '_' else ch))

/-- The login-script modules shipped in the source tree: the directory
src/refresh/scripts/ contains exactly one module file, nrc.py. -/
def shippedScriptModules : List String :=
  ["refresh.scripts.nrc"]

/-- Errors a single `_run_login_flow` call can raise. -/
inductive RefreshError where
  | noLoginScript (domain : String)
  | loginFailed (msg : String)
deriving Repr, DecidableEq

/-- The outcome of one `_run_login_flow` attempt (src/refresh/refresh.py lines
61-92): resolve `_script_module_name site.domain` against the set of importable
modules; a miss raises `ModuleNotFoundError` (`noLoginScript`), a hit runs the
browser login, whose outcome (cookies or an exception) is `loginResult`. -/
def runLoginFlowOutcome (registry : List String) (domain : String)
    (loginResult : Except RefreshError (List Cookie)) :
    Except RefreshError (List Cookie) :=
  if _script_module_name domain ∈ registry then loginResult
  else .error (.noLoginScript domain)

deriving instance DecidableEq for Except

/-- Observable trace of one `perform_refresh` call: its final outcome (saved
cookies, or the `RuntimeError` message), the number of attempts started, and
the back-off sleeps performed, in order. -/
structure RefreshTrace where
  result : Except String (List Cookie)
  attemptsMade : Nat
  backoffSleeps : List Nat
deriving Repr, DecidableEq

/-- The `for attempt in range(1, MAX_RETRIES + 1)` loop of `perform_refresh`
(src/refresh/refresh.py lines 39-58): on success, save and return; on any
exception (the `except Exception` at line 51 catches `ModuleNotFoundError`
too), sleep `BASE_BACKOFF_SECONDS * 2 ** (attempt - 1)` when `attempt <
MAX_RETRIES` and go on to the next attempt. -/
def performRefreshLoop (domain : String)
    (outcome : Nat → Except RefreshError (List Cookie)) :
    List Nat → Nat → List Nat → RefreshTrace
  | [], made, sleeps =>
    { result := .error ("All 3 refresh attempts failed for " ++ domain)
      attemptsMade := made
      backoffSleeps := sleeps }
  | attempt :: rest, made, sleeps =>
    match outcome attempt with
    | .ok cookies =>
      { result := .ok cookies, attemptsMade := made + 1, backoffSleeps := sleeps }
    | .error _ =>
      if attempt < MAX_RETRIES then
        performRefreshLoop domain outcome rest (made + 1)
          (sleeps ++ [BASE_BACKOFF_SECONDS * 2 ^ (attempt - 1)])
      else
        performRefreshLoop domain outcome rest (made + 1) sleeps

/-- `perform_refresh` (src/refresh/refresh.py lines 25-58), abstracted over the
outcome of each attempt's `_run_login_flow` call; a successful save is part of
the `.ok` result. -/
def perform_refresh (domain : String)
    (outcome : Nat → Except RefreshError (List Cookie)) : RefreshTrace :=
  performRefreshLoop domain outcome (List.range' 1 MAX_RETRIES) 0 []

/-! ### Helper lemmas -/

/-- When the domain's script module is not in the registry, every attempt of
`perform_refresh` fails with `noLoginScript`; the call makes all 3 attempts,
sleeps 5 s and 10 s between them, and ends with the `RuntimeError`. -/
lemma performRefresh_missing_script (domain : String) (registry : List String)
    (login : Nat → Except RefreshError (List Cookie))
    (h : _script_module_name domain ∉ registry) :
    perform_refresh domain
        (fun n => runLoginFlowOutcome registry domain (login n)) =
      { result := .error ("All 3 refresh attempts failed for " ++ domain)
        attemptsMade := 3
        backoffSleeps := [5, 10] } := by
  have hout : ∀ n, runLoginFlowOutcome registry domain (login n) =
      .error (.noLoginScript domain) := by
    intro n
    unfold runLoginFlowOutcome
    rw [if_neg h]
  show performRefreshLoop domain _ (List.range' 1 MAX_RETRIES) 0 [] = _
  have hr : List.range' 1 MAX_RETRIES = [1, 2, 3] := rfl
  rw [hr]
  simp [performRefreshLoop, hout, MAX_RETRIES, BASE_BACKOFF_SECONDS]

/-- `apply_session_cookie_workaround` is the identity on a list in which no
cookie's effective `expires` is `-1`. -/
lemma apply_workaround_eq_self (now : ℤ) (cookies : List Cookie)
    (h : ∀ c ∈ cookies, c.expiresOrDefault ≠ -1) :
    apply_session_cookie_workaround now cookies = cookies := by
  unfold apply_session_cookie_workaround
  induction cookies with
  | nil => rfl
  | cons c cs ih =>
    simp only [List.map_cons]
    rw [if_neg (h c (List.mem_cons_self c cs))]
    rw [ih (fun x hx => h x (List.mem_cons_of_mem c hx))]

/-! ### Claim theorems -/

/-- C1: on a request whose jar classifies as `ok`, the code places the
`X-Cookie-Injector-Status` header on the forwarded request itself
(src/proxy/addon.py line 76) and defines no `response` hook, contradicting the
claim (and the repository's own test, which asserts the header is absent from
the request and calls an `addon.response` method that does not exist).  This
theorem evaluates the embedded `request` handler at the failing input: the
outcome is a forwarded request whose headers contain
`X-Cookie-Injector-Status: ok`. -/
theorem c1_status_header_set_on_forwarded_request :
    addonRequest (some "nrc.nl")
        (some (Except.ok ⟨some [⟨"s", "v", none, some 172800⟩], none⟩)) 0 [] =
      AddonOutcome.forwarded
        [("Cookie", "s=v"), ("X-Cookie-Injector-Status", "ok")] ∧
    ("X-Cookie-Injector-Status", "ok") ∈
      [("Cookie", "s=v"), ("X-Cookie-Injector-Status", "ok")] := by
  constructor
  · rfl
  · simp

/-- C2 counterexample: for the shipped source tree (whose only login-script
module is `refresh.scripts.nrc`), one `perform_refresh` call for `nrc.nl` —
whose resolved module is missing — makes all 3 attempts and performs the
back-off sleeps 5 s and 10 s, rather than failing terminally on the first
attempt with no retries and no sleeps. -/
theorem c2_missing_script_retried_counterexample :
    perform_refresh "nrc.nl"
        (fun _ => runLoginFlowOutcome shippedScriptModules "nrc.nl"
          (Except.ok [])) =
      { result := Except.error "All 3 refresh attempts failed for nrc.nl"
        attemptsMade := 3
        backoffSleeps := [5, 10] } ∧
    ¬((perform_refresh "nrc.nl"
        (fun _ => runLoginFlowOutcome shippedScriptModules "nrc.nl"
          (Except.ok []))).attemptsMade = 1 ∧
      (perform_refresh "nrc.nl"
        (fun _ => runLoginFlowOutcome shippedScriptModules "nrc.nl"
          (Except.ok []))).backoffSleeps = []) := by
  constructor
  · exact performRefresh_missing_script "nrc.nl" shippedScriptModules
      (fun _ => Except.ok []) (by decide)
  · rw [performRefresh_missing_script "nrc.nl" shippedScriptModules
      (fun _ => Except.ok []) (by decide)]
    decide

/-- C2 amended: a missing login routine raises `ModuleNotFoundError` on every
attempt, but `perform_refresh` catches it like any other failure and retries:
the call makes 3 attempts in total, with back-off sleeps of 5 s and 10 s
between them, and then raises `RuntimeError`; the missing script is not a
terminal first-attempt failure. -/
theorem c2_missing_script_retry_behavior (domain : String)
    (registry : List String) (login : Nat → Except RefreshError (List Cookie))
    (h : _script_module_name domain ∉ registry) :
    perform_refresh domain
        (fun n => runLoginFlowOutcome registry domain (login n)) =
      { result := .error ("All 3 refresh attempts failed for " ++ domain)
        attemptsMade := 3
        backoffSleeps := [5, 10] } :=
  performRefresh_missing_script domain registry login h

/-- Witness for the amended C2 theorem at the shipped registry and `nrc.nl`. -/
theorem c2_missing_script_retry_behavior_witness :
    perform_refresh "nrc.nl"
        (fun n => runLoginFlowOutcome shippedScriptModules "nrc.nl"
          ((fun _ => Except.ok []) n)) =
      { result := .error ("All 3 refresh attempts failed for " ++ "nrc.nl")
        attemptsMade := 3
        backoffSleeps := [5, 10] } :=
  c2_missing_script_retry_behavior "nrc.nl" shippedScriptModules
    (fun _ => Except.ok []) (by decide)

/-- C10: the login-script resolver maps `nrc.nl` to `refresh.scripts.nrc_nl`,
which is not among the shipped script modules (the tree ships only
`refresh.scripts.nrc`); hence every attempt's `_run_login_flow` fails with the
missing-script error and every `perform_refresh` call for `nrc.nl` ends with
the all-attempts-failed `RuntimeError`, whatever the login routine would have
returned. -/
theorem c10_nrc_script_resolution_fails :
    _script_module_name "nrc.nl" = "refresh.scripts.nrc_nl" ∧
    shippedScriptModules.contains "refresh.scripts.nrc_nl" = false ∧
    (∀ loginResult, runLoginFlowOutcome shippedScriptModules "nrc.nl" loginResult =
      Except.error (RefreshError.noLoginScript "nrc.nl")) ∧
    (∀ login : Nat → Except RefreshError (List Cookie),
      (perform_refresh "nrc.nl"
          (fun n => runLoginFlowOutcome shippedScriptModules "nrc.nl" (login n))).result =
        Except.error "All 3 refresh attempts failed for nrc.nl") := by
  refine ⟨by decide, by decide, ?_, ?_⟩
  · intro loginResult
    unfold runLoginFlowOutcome
    rw [if_neg (by decide)]
  · intro login
    rw [performRefresh_missing_script "nrc.nl" shippedScriptModules login (by decide)]
    rfl

/-- C3 counterexample: the session fix-up only rewrites cookies whose effective
`expires` is exactly `-1`; a cookie saved with `expires == 0` (or any other
non-positive value different from `-1`) passes through unchanged, so the
persisted jar can contain a non-positive expiry, refuting the claim that every
persisted `expires` is positive. -/
theorem c3_fixup_expiry_not_always_positive :
    (save_cookies_with_metadata "nrc.nl" [⟨"s", "v", none, some 0⟩] 1000
        "2026-02-21T10:00:00Z" "scheduled" none).cookies =
      some [⟨"s", "v", none, some 0⟩] ∧
    apply_session_cookie_workaround 1000 [⟨"s", "v", none, some 0⟩] =
      [⟨"s", "v", none, some 0⟩] ∧
    ¬(∀ c ∈ apply_session_cookie_workaround 1000 [⟨"s", "v", none, some 0⟩],
        0 < c.expiresOrDefault) := by
  refine ⟨rfl, rfl, ?_⟩
  decide

/-- C3 amended: after the session fix-up (run at a non-negative clock `now`),
no cookie has effective `expires == -1`; every input cookie whose effective
`expires` was `-1` (including a missing key) is given the positive integer
expiry `now + 30*24*3600`, and every other cookie — whatever its expiry, even
a non-positive one — passes through unchanged. -/
theorem c3_session_fixup_amended (now : ℤ) (cookies : List Cookie)
    (hnow : 0 ≤ now) :
    List.Forall₂ (fun cin cout =>
        cout.expiresOrDefault ≠ -1 ∧
        (cin.expiresOrDefault = -1 →
          cout.expires = some (now + SESSION_COOKIE_TTL_SECONDS) ∧
          0 < cout.expiresOrDefault) ∧
        (cin.expiresOrDefault ≠ -1 → cout = cin))
      cookies (apply_session_cookie_workaround now cookies) := by
  unfold apply_session_cookie_workaround
  induction cookies with
  | nil => exact List.Forall₂.nil
  | cons c cs ih =>
    simp only [List.map_cons]
    refine List.Forall₂.cons ?_ ih
    by_cases hc : c.expiresOrDefault = -1
    · rw [if_pos hc]
      have hpos : 0 < now + SESSION_COOKIE_TTL_SECONDS := by
        unfold SESSION_COOKIE_TTL_SECONDS
        omega
      refine ⟨?_, fun _ => ⟨rfl, ?_⟩, fun hne => absurd hc hne⟩
      · show (Option.some (now + SESSION_COOKIE_TTL_SECONDS)).getD (-1) ≠ -1
        simp only [Option.getD_some]
        omega
      · show 0 < (Option.some (now + SESSION_COOKIE_TTL_SECONDS)).getD (-1)
        simpa using hpos
    · rw [if_neg hc]
      exact ⟨hc, fun h => absurd h hc, fun _ => rfl⟩

/-- Witness for the amended C3 theorem: one session cookie at clock 100. -/
theorem c3_session_fixup_amended_witness :
    List.Forall₂ (fun cin cout =>
        cout.expiresOrDefault ≠ -1 ∧
        (cin.expiresOrDefault = -1 →
          cout.expires = some (100 + SESSION_COOKIE_TTL_SECONDS) ∧
          0 < cout.expiresOrDefault) ∧
        (cin.expiresOrDefault ≠ -1 → cout = cin))
      [⟨"sess", "x", none, some (-1)⟩]
      (apply_session_cookie_workaround 100 [⟨"sess", "x", none, some (-1)⟩]) :=
  c3_session_fixup_amended 100 [⟨"sess", "x", none, some (-1)⟩] (by decide)

/-- C4: any run of the atomic write protocol that fails at a step before the
final rename (opening, writing, flushing, or syncing the temporary file) leaves
the `{domain}.json` target exactly as it was; only a fully successful run
changes the target, and it does so by the rename step, which installs the
temporary file's contents and removes the `.tmp` entry in one step — no code
path writes the target in place or copy-deletes. -/
theorem c4_save_failure_preserves_target (content : String) (fs : FS)
    (failAt : Option SaveStep) (h : failAt ≠ some SaveStep.renameStep) :
    (∀ fs', save_write_protocol content fs failAt = .error fs' →
      fs'.target = fs.target) ∧
    (∀ fs', save_write_protocol content fs failAt = .ok fs' →
      fs'.target = some content ∧ fs'.tmp = none) := by
  rcases failAt with _ | step
  · constructor
    · intro fs' hfs
      simp [save_write_protocol] at hfs
    · intro fs' hfs
      simp [save_write_protocol] at hfs
      rw [← hfs]
      exact ⟨rfl, rfl⟩
  · cases step
    case renameStep => exact absurd rfl h
    all_goals
      constructor
      · intro fs' hfs
        simp [save_write_protocol] at hfs
        rw [← hfs]
      · intro fs' hfs
        simp [save_write_protocol] at hfs

/-- Witness for C4: a failure while writing the temporary file leaves the old
target contents in place. -/
theorem c4_save_failure_preserves_target_witness :
    (FS.mk (some "oldjar") (some "")).target = (FS.mk (some "oldjar") none).target :=
  (c4_save_failure_preserves_target "newjar" ⟨some "oldjar", none⟩
      (some SaveStep.writeTmp) (by decide)).1
    ⟨some "oldjar", some ""⟩ (by rfl)

/-- C9: saving a cookie list in which no cookie's effective `expires` is `-1`
and loading the resulting jar value returns exactly the input list — the same
names, values and expiries in the same order (the session fix-up leaves every
such cookie untouched and the jar's `cookies` key holds them in input order). -/
theorem c9_save_load_round_trip (domain refreshedAt rsource : String)
    (nra : Option String) (now : ℤ) (cookies : List Cookie)
    (h : ∀ c ∈ cookies, c.expiresOrDefault ≠ -1) :
    Except.map Prod.fst
        (load_cookies (some (Except.ok
          (save_cookies_with_metadata domain cookies now refreshedAt rsource nra)))) =
      Except.ok cookies := by
  unfold save_cookies_with_metadata load_cookies
  simp only [apply_workaround_eq_self now cookies h]
  rfl

/-- Witness for C9 at a concrete one-cookie list. -/
theorem c9_save_load_round_trip_witness :
    Except.map Prod.fst
        (load_cookies (some (Except.ok
          (save_cookies_with_metadata "nrc.nl"
            [⟨"a", "b", some ".nrc.nl", some 3600⟩] 1000
            "2026-02-21T10:00:00Z" "scheduled" none)))) =
      Except.ok [⟨"a", "b", some ".nrc.nl", some 3600⟩] :=
  c9_save_load_round_trip "nrc.nl" "2026-02-21T10:00:00Z" "scheduled" none 1000
    [⟨"a", "b", some ".nrc.nl", some 3600⟩] (by decide)

/-- C5 counterexample: a jar file whose content is a syntactically valid JSON
object *without* a `cookies` key is reported by the health aggregator as
`status: "expired"`, not `"error"`: `get_site_status` reads the key with
`data.get("cookies", [])`, so the missing key is treated as an empty cookie
list. -/
theorem c5_missing_cookies_key_not_error :
    (get_site_status (Except.ok ⟨none, none⟩) 0).status = "expired" ∧
    (get_site_status (Except.ok ⟨none, none⟩) 0).status ≠ "error" := by
  constructor
  · rfl
  · decide

/-- C5 amended: the health aggregator reports per-site `status: "error"` for a
jar file whose content is invalid JSON; a valid JSON object lacking the
`cookies` key is instead treated as an empty jar and reported as
`status: "expired"`. -/
theorem c5_malformed_jar_amended (now : ℤ) (metadata_ : Option Metadata) :
    (get_site_status (Except.error ()) now).status = "error" ∧
    (get_site_status (Except.ok ⟨none, metadata_⟩) now).status = "expired" :=
  ⟨rfl, rfl⟩

/-- C8 counterexample: in the `error` case the per-site record is a dict with
only `status` and `error` keys; the `cookies_count` field is absent, not `0`. -/
theorem c8_cookies_count_absent_on_error :
    (get_site_status (Except.error ()) 0).status = "error" ∧
    (get_site_status (Except.error ()) 0).cookies_count = none ∧
    (get_site_status (Except.error ()) 0).cookies_count ≠ some 0 := by
  refine ⟨rfl, rfl, ?_⟩
  decide

/-- C8 amended: when the per-site status is `expired`, the record carries
`cookies_count = 0`; when the status is `error`, the record carries no
`cookies_count` field at all. -/
theorem c8_cookies_count_amended (parsed : Except Unit Jar) (now : ℤ) :
    ((get_site_status parsed now).status = "expired" →
      (get_site_status parsed now).cookies_count = some 0) ∧
    ((get_site_status parsed now).status = "error" →
      (get_site_status parsed now).cookies_count = none) := by
  rcases parsed with u | data
  · constructor
    · intro hst
      exact absurd (show ("error" : String) = "expired" from hst) (by decide)
    · intro _
      rfl
  · dsimp only [get_site_status]
    split
    · constructor
      · intro _
        rfl
      · intro hst
        exact absurd (show ("expired" : String) = "error" from hst) (by decide)
    · split
      · constructor
        · intro hst
          exact absurd (show ("error" : String) = "expired" from hst) (by decide)
        · intro _
          rfl
      · split
        · constructor
          · intro hst
            exact absurd (show ("error" : String) = "expired" from hst) (by decide)
          · intro _
            rfl
        · constructor
          · intro hst
            exfalso
            revert hst
            dsimp only
            split <;> intro hst <;> exact absurd hst (by decide)
          · intro hst
            exfalso
            revert hst
            dsimp only
            split <;> intro hst <;> exact absurd hst (by decide)

/-- Witness for the amended C8 theorem: at an invalid-JSON jar the status is
`error` and the `cookies_count` key is absent. -/
theorem c8_cookies_count_amended_witness :
    (get_site_status (Except.error ()) 123).cookies_count = none :=
  (c8_cookies_count_amended (Except.error ()) 123).2 rfl

/-- C6: whenever `calculate_next_refresh` returns, the returned number of
seconds is either exactly `0` or lies in the closed interval
`[6 hours, 24 hours]`; it is never strictly between `0` and `6 h` and never
above `24 h`. -/
theorem c6_sleep_interval_range (fileExists : Bool)
    (loadResult : Except Unit (List Cookie)) (now : ℤ) (r : ℚ)
    (h : calculate_next_refresh fileExists loadResult now = .ok r) :
    r = 0 ∨ (6 * 3600 ≤ r ∧ r ≤ 24 * 3600) := by
  unfold calculate_next_refresh at h
  by_cases hf : fileExists = false
  · rw [if_pos hf] at h
    exact Or.inl (Except.ok.inj h).symm
  · rw [if_neg hf] at h
    cases loadResult with
    | error e => exact Or.inl (Except.ok.inj h).symm
    | ok cookies =>
      simp only at h
      split at h
      · exact Or.inl (Except.ok.inj h).symm
      · split at h
        · exact Except.noConfusion h
        · split at h
          · exact Except.noConfusion h
          · right
            have hr : r = max MIN_INTERVAL (min MAX_INTERVAL _) :=
              (Except.ok.inj h).symm
            rw [hr]
            constructor
            · exact le_max_left _ _
            · exact max_le (by unfold MIN_INTERVAL; norm_num)
                (le_trans (min_le_left _ _) (by unfold MAX_INTERVAL; norm_num))

/-- Witness for C6: a jar with one cookie expiring 24 h from now yields the
in-range value 18 h (= 64800 s). -/
theorem c6_sleep_interval_range_witness :
    (64800 : ℚ) = 0 ∨ ((6 * 3600 : ℚ) ≤ 64800 ∧ (64800 : ℚ) ≤ 24 * 3600) :=
  c6_sleep_interval_range true (.ok [⟨"s", "v", none, some 86400⟩]) 0 64800
    (by
      rw [show calculate_next_refresh true (.ok [⟨"s", "v", none, some 86400⟩]) 0
          = .ok (max MIN_INTERVAL (min MAX_INTERVAL (((86400 - 0 : ℤ) : ℚ) * (3 / 4))))
        from rfl]
      norm_num [MIN_INTERVAL, MAX_INTERVAL])

/-- C7: on every list on which the classifier returns, the returned subset is
exactly the input's cookies with `expires > now` (a missing `expires` read as
`-1`), in input order (a sublist of the input); the status is `expired` exactly
when that subset is empty (and then the subset returned is empty too); and on a
non-empty subset the status is `expiring` precisely when the minimum valid
expiry minus `now` is strictly below 24 hours, `ok` otherwise. -/
theorem c7_classifier_spec (cookies : List Cookie) (now : ℤ) (st : String)
    (sub : List Cookie)
    (h : get_cookie_status cookies now = .ok (st, sub)) :
    sub = cookies.filter (fun c => decide (c.expiresOrDefault > now)) ∧
    sub.Sublist cookies ∧
    (st = "expired" ↔
      cookies.filter (fun c => decide (c.expiresOrDefault > now)) = []) ∧
    (cookies.filter (fun c => decide (c.expiresOrDefault > now)) ≠ [] →
      ∃ m, ((cookies.filter (fun c => decide (c.expiresOrDefault > now))).filterMap
          Cookie.expires).min? = some m ∧
        st = (if m - now < 24 * 3600 then "expiring" else "ok")) := by
  unfold get_cookie_status at h
  simp only at h
  split at h
  case isTrue hemp =>
    have hfil : cookies.filter (fun c => decide (c.expiresOrDefault > now)) = [] :=
      List.isEmpty_iff.mp hemp
    obtain ⟨hst, hsub⟩ := Prod.mk.injEq .. ▸ (Except.ok.inj h)
    refine ⟨?_, ?_, ?_, ?_⟩
    · rw [← hsub, hfil]
    · rw [← hsub]; exact List.nil_sublist cookies
    · simp [← hst, hfil]
    · intro hne; exact absurd hfil hne
  case isFalse hemp =>
    split at h
    · exact Except.noConfusion h
    · split at h
      · exact Except.noConfusion h
      case h_2 m hmin =>
        have hne : cookies.filter (fun c => decide (c.expiresOrDefault > now)) ≠ [] := by
          intro heq
          exact hemp (by rw [heq]; rfl)
        split at h <;>
          obtain ⟨hst, hsub⟩ := Prod.mk.injEq .. ▸ (Except.ok.inj h)
        case isTrue hlt =>
          refine ⟨hsub.symm, ?_, ?_, ?_⟩
          · rw [← hsub]; exact List.filter_sublist cookies
          · constructor
            · intro habs; rw [← hst] at habs; exact absurd habs (by decide)
            · intro habs; exact absurd habs hne
          · intro _
            exact ⟨m, hmin, by rw [← hst, if_pos hlt]⟩
        case isFalse hlt =>
          refine ⟨hsub.symm, ?_, ?_, ?_⟩
          · rw [← hsub]; exact List.filter_sublist cookies
          · constructor
            · intro habs; rw [← hst] at habs; exact absurd habs (by decide)
            · intro habs; exact absurd habs hne
          · intro _
            exact ⟨m, hmin, by rw [← hst, if_neg hlt]⟩

/-- Witness for C7: one cookie expiring 90000 s after `now = 0` classifies as
`ok` with the singleton subset. -/
theorem c7_classifier_spec_witness :
    [(⟨"a", "1", none, some 90000⟩ : Cookie)] =
      ([⟨"a", "1", none, some 90000⟩] : List Cookie).filter
        (fun c => decide (c.expiresOrDefault > 0)) ∧
    List.Sublist [(⟨"a", "1", none, some 90000⟩ : Cookie)]
      [⟨"a", "1", none, some 90000⟩] ∧
    (("ok" : String) = "expired" ↔
      ([⟨"a", "1", none, some 90000⟩] : List Cookie).filter
        (fun c => decide (c.expiresOrDefault > 0)) = []) ∧
    (([⟨"a", "1", none, some 90000⟩] : List Cookie).filter
        (fun c => decide (c.expiresOrDefault > 0)) ≠ [] →
      ∃ m, ((([⟨"a", "1", none, some 90000⟩] : List Cookie).filter
          (fun c => decide (c.expiresOrDefault > 0))).filterMap
          Cookie.expires).min? = some m ∧
        ("ok" : String) = (if m - 0 < 24 * 3600 then "expiring" else "ok")) :=
  c7_classifier_spec [⟨"a", "1", none, some 90000⟩] 0 "ok"
    [⟨"a", "1", none, some 90000⟩] rfl

end CookieInjector
